import Mathlib

/-!
Shallow embedding of the smart-reply-service reply-generation pipeline
(src/app/services/reply_service.py and src/app/schemas/reply.py).

Strings are modelled as lists of characters (Python str over its code
points); ASCII is the scope of all texts involved, where Python
str.lower and Lean Char.toLower agree. Confidence scores are modelled
as rationals: the Python floats 0.8, 0.7, 0.6, 0.1 and their
differences are treated as the exact decimal values the source writes.
Wall-clock timing (processing_time_ms) is not modelled. Fallible code
is modelled with Option: generate_replies can raise IndexError at the
messages[-1] access, so its embedding returns none exactly there.
-/

namespace SmartReply

/-- ReplyTone enumeration (schemas/reply.py). -/
inductive ReplyTone where
  | professional
  | friendly
  | casual
  | formal
deriving DecidableEq, Repr

/-- ReplyIntent enumeration (schemas/reply.py). -/
inductive ReplyIntent where
  | acknowledge
  | agree
  | disagree
  | question
  | answer
  | thanks
  | greeting
  | farewell
  | suggestion
  | general
deriving DecidableEq, Repr

/-- Message (schemas/reply.py); the timestamp field is unused by the
pipeline and omitted. -/
structure Message where
  id : Option (List Char) := none
  content : List Char
  sender_id : List Char
  sender_name : Option (List Char) := none
  is_current_user : Bool := false
deriving DecidableEq, Repr

/-- ConversationContext (schemas/reply.py). -/
structure ConversationContext where
  messages : List Message
  channel_name : Option (List Char) := none
  channel_type : Option (List Char) := none
  workspace_id : Option (List Char) := none
deriving DecidableEq, Repr

/-- ReplyRequest (schemas/reply.py). -/
structure ReplyRequest where
  context : ConversationContext
  current_user_id : List Char
  current_user_name : Option (List Char) := none
  tone : ReplyTone := ReplyTone.professional
  num_suggestions : Nat := 3
  max_length : Nat := 100
  include_quick_replies : Bool := true
deriving DecidableEq, Repr

/-- The pydantic field constraints on ReplyRequest and its context that the
schema layer enforces before the service is called. -/
def ReplyRequest.Valid (r : ReplyRequest) : Prop :=
  1 ≤ r.context.messages.length ∧ r.context.messages.length ≤ 20 ∧
  1 ≤ r.num_suggestions ∧ r.num_suggestions ≤ 5 ∧
  10 ≤ r.max_length ∧ r.max_length ≤ 500

/-- ReplySuggestion (schemas/reply.py). -/
structure ReplySuggestion where
  text : List Char
  confidence : ℚ
  intent : ReplyIntent
  tone : ReplyTone
  is_quick_reply : Bool := false
deriving DecidableEq, Repr

/-- ReplyResponse (schemas/reply.py); processing_time_ms and
model_version are not modelled. -/
structure ReplyResponse where
  suggestions : List ReplySuggestion
  context_summary : List Char
deriving DecidableEq, Repr

/-- QuickReplyResponse (schemas/reply.py). -/
structure QuickReplyResponse where
  replies : List (List Char)
  intent : ReplyIntent
deriving DecidableEq, Repr

/-! ### Python string primitives -/

/-- A regex word character for the ASCII texts in scope: [a-zA-Z0-9_]. -/
def pyWordChar (c : Char) : Bool :=
  (('a' ≤ c && c ≤ 'z') || ('A' ≤ c && c ≤ 'Z') || ('0' ≤ c && c ≤ '9') || c == '_')

/-- Python str whitespace (space, tab, newline, carriage return,
vertical tab, form feed). -/
def pyIsSpace (c : Char) : Bool :=
  c == ' ' || c == '\t' || c == '\n' || c == '\r' || c == '\x0b' || c == '\x0c'

/-- Python str.lower on ASCII text. -/
def lowerStr (s : List Char) : List Char :=
  s.map Char.toLower

/-- Python str.strip(): remove leading and trailing whitespace. -/
def pyStrip (s : List Char) : List Char :=
  ((s.dropWhile pyIsSpace).reverse.dropWhile pyIsSpace).reverse

/-- Whether pat occurs as a contiguous substring of s (Python in). -/
def containsSub (pat : List Char) : List Char → Bool
  | [] => pat.isPrefixOf []
  | c :: rest => pat.isPrefixOf (c :: rest) || containsSub pat rest

/-- Python str.replace, written with a fuel argument so that the
recursion is structural (every step consumes at least one character, so
fuel equal to the length of the text always suffices). -/
def pyReplaceAux (pat rep : List Char) : Nat → List Char → List Char
  | _, [] => []
  | 0, s => s
  | fuel + 1, c :: rest =>
    if pat ≠ [] ∧ pat.isPrefixOf (c :: rest) then
      rep ++ pyReplaceAux pat rep fuel (rest.drop (pat.length - 1))
    else
      c :: pyReplaceAux pat rep fuel rest

/-- Python str.replace: replace every non-overlapping occurrence of pat,
scanning left to right. All patterns used by the service are non-empty. -/
def pyReplace (s pat rep : List Char) : List Char :=
  pyReplaceAux pat rep s.length s

/-- Helper for pyWords: cur holds the reversed current word. -/
def pyWordsAux (cur : List Char) : List Char → List (List Char)
  | [] => if cur = [] then [] else [cur.reverse]
  | c :: rest =>
    if pyIsSpace c then
      if cur = [] then pyWordsAux [] rest else cur.reverse :: pyWordsAux [] rest
    else
      pyWordsAux (c :: cur) rest

/-- Python str.split() with no argument: split on whitespace runs,
discarding empty pieces. -/
def pyWords (s : List Char) : List (List Char) :=
  pyWordsAux [] s

/-! ### Intent detection (reply_service.py, intent_patterns and
_detect_intent) -/

/-- Given the remainder of a special-token match (text after an opening
angle-bracket-pipe), find the closing pipe-greater sequence reachable
without crossing a newline, returning how many characters the match
consumes; mirrors the lazy body of the special-token regex in
_clean_reply, where dot does not match newline. -/
def findCloseLen : List Char → Option Nat
  | '|' :: '>' :: _ => some 2
  | '\n' :: _ => none
  | _ :: rest => (findCloseLen rest).map (· + 1)
  | [] => none

/-- Whether keyword kw occurs in s at a position with regex word
boundaries on both sides; prevIsWord tells whether the character just
before s is a word character. All keywords begin and end with word
characters, so the boundary before requires a non-word (or absent)
previous character, and the boundary after requires a non-word (or
absent) following character. -/
def wbSearchAux (kw : List Char) (prevIsWord : Bool) : List Char → Bool
  | [] => false
  | c :: rest =>
    (!prevIsWord && kw.isPrefixOf (c :: rest) &&
      (match (c :: rest).drop kw.length with
       | [] => true
       | d :: _ => !pyWordChar d))
    || wbSearchAux kw (pyWordChar c) rest

/-- Search for a word-boundary-delimited occurrence of kw anywhere in s. -/
def wbSearch (kw : List Char) (s : List Char) : Bool :=
  wbSearchAux kw false s

/-- Whether any keyword of the alternation matches with word boundaries. -/
def anyKeyword (kws : List (List Char)) (s : List Char) : Bool :=
  kws.any (fun kw => wbSearch kw s)

/-- The greeting alternation of intent_patterns. -/
def greetingKeywords : List (List Char) :=
  ["hi".data, "hello".data, "hey".data, "good morning".data, "good afternoon".data]

/-- The farewell alternation of intent_patterns. -/
def farewellKeywords : List (List Char) :=
  ["bye".data, "goodbye".data, "see you".data, "talk later".data, "take care".data]

/-- The thanks alternation of intent_patterns. -/
def thanksKeywords : List (List Char) :=
  ["thank".data, "thanks".data, "appreciate".data, "grateful".data]

/-- The interrogative alternation of the question pattern. -/
def questionKeywords : List (List Char) :=
  ["what".data, "how".data, "why".data, "when".data, "where".data, "who".data,
   "could you".data, "can you".data]

/-- The question-mark-at-end branch of the question pattern: a dollar
anchor in Python re matches at the end of the string or just before a
trailing newline. -/
def endsWithQuestionMark (s : List Char) : Bool :=
  match s.reverse with
  | '?' :: _ => true
  | '\n' :: '?' :: _ => true
  | _ => false

/-- The ordered intent rules, in Python dict insertion order
(reply_service.py intent_patterns). -/
def intentRules : List (ReplyIntent × (List Char → Bool)) :=
  [(ReplyIntent.greeting, anyKeyword greetingKeywords),
   (ReplyIntent.farewell, anyKeyword farewellKeywords),
   (ReplyIntent.thanks, anyKeyword thanksKeywords),
   (ReplyIntent.question, fun t => endsWithQuestionMark t || anyKeyword questionKeywords t)]

/-- Embedding of _detect_intent: lower-case the text, return the intent of the first
rule whose pattern matches, defaulting to general. -/
def detectIntent (text : List Char) : ReplyIntent :=
  match intentRules.find? (fun r => r.2 (lowerStr text)) with
  | some r => r.1
  | none => ReplyIntent.general

/-! ### Template store (reply_service.py, quick_reply_templates) -/

/-- The acknowledge template list. -/
def ackTemplates : List (List Char) :=
  ["Got it, thanks!".data, "Understood".data, "Sounds good".data, "Noted, thank you".data]

/-- quick_reply_templates as a partial map: intents without an entry
(answer, suggestion, general) yield none, mirroring dict membership. -/
def quickReplyTemplates : ReplyIntent → Option (List (List Char))
  | ReplyIntent.acknowledge => some ackTemplates
  | ReplyIntent.agree =>
      some ["I agree".data, "That makes sense".data, "Absolutely".data, "Good point".data]
  | ReplyIntent.disagree =>
      some ["I have a different view".data, "Let me share another perspective".data,
            "I\x27m not sure about that".data]
  | ReplyIntent.thanks =>
      some ["Thank you!".data, "Thanks for your help".data, "Much appreciated".data,
            "Thanks!".data]
  | ReplyIntent.greeting =>
      some ["Hi there!".data, "Hello!".data, "Hey!".data, "Good to hear from you".data]
  | ReplyIntent.farewell =>
      some ["Talk soon!".data, "Have a great day!".data, "Take care".data, "Bye for now".data]
  | ReplyIntent.question =>
      some ["Could you clarify?".data, "What do you think?".data, "Any thoughts on this?".data]
  | _ => none

/-- dict.get(intent, templates of acknowledge), as used by the fallback
tier and by get_quick_replies. -/
def templatesOrAck (intent : ReplyIntent) : List (List Char) :=
  (quickReplyTemplates intent).getD ackTemplates

/-! ### Tone adapter (reply_service.py, _adjust_for_tone) -/

/-- The ordered formal substitution table. -/
def formalReplacements : List (List Char × List Char) :=
  [("Thanks!".data, "Thank you.".data),
   ("Got it".data, "Understood".data),
   ("Sounds good".data, "That works well".data),
   ("Hi there!".data, "Hello,".data),
   ("Hey!".data, "Hello,".data)]

/-- The ordered casual substitution table. -/
def casualReplacements : List (List Char × List Char) :=
  [("Thank you.".data, "Thanks!".data),
   ("Understood".data, "Got it!".data),
   ("Hello,".data, "Hey!".data)]

/-- Apply an ordered table of literal find-and-replace passes. -/
def applyReplacements (table : List (List Char × List Char)) (text : List Char) : List Char :=
  table.foldl (fun t p => pyReplace t p.1 p.2) text

/-- Embedding of _adjust_for_tone: formal and casual apply their tables; other tones
return the text unchanged. -/
def adjustForTone (text : List Char) (tone : ReplyTone) : List Char :=
  match tone with
  | ReplyTone.formal => applyReplacements formalReplacements text
  | ReplyTone.casual => applyReplacements casualReplacements text
  | _ => text

/-! ### Reply cleanup (reply_service.py, _clean_reply) -/

/-- Body of stripSpecialTokens with a fuel argument making the
recursion structural; every step consumes at least one character. -/
def stripSpecialAux : Nat → List Char → List Char
  | _, [] => []
  | 0, s => s
  | fuel + 1, '<' :: '|' :: rest =>
    (match findCloseLen rest with
     | some n => stripSpecialAux fuel (rest.drop n)
     | none => '<' :: stripSpecialAux fuel ('|' :: rest))
  | fuel + 1, c :: rest => c :: stripSpecialAux fuel rest

/-- Remove every special-token span (the lazy angle-pipe regex of
_clean_reply, applied as re.sub across the text). -/
def stripSpecialTokens (s : List Char) : List Char :=
  stripSpecialAux s.length s

/-- Embedding of _clean_reply: strip special tokens, collapse whitespace by splitting
and rejoining with single spaces, capitalize the first character, and
ensure the text ends in sentence punctuation. -/
def cleanReply (text : List Char) : List Char :=
  let t1 := stripSpecialTokens text
  let t2 := List.intercalate [' '] (pyWords t1)
  let t3 := match t2 with
    | [] => []
    | c :: rest => Char.toUpper c :: rest
  match t3.getLast? with
  | none => t3
  | some c => if c = '.' ∨ c = '!' ∨ c = '?' then t3 else t3 ++ ['.']

/-! ### Suggestion tiers and orchestrator (reply_service.py) -/

/-- settings.MAX_CONTEXT_MESSAGES (core/config.py default). -/
def MAX_CONTEXT_MESSAGES : Nat := 5

/-- The sender label of _build_context_string: Python or-chaining makes
an absent or empty sender_name fall through to sender_id. -/
def senderLabel (m : Message) : List Char :=
  match m.sender_name with
  | some n => if n = [] then m.sender_id else n
  | none => m.sender_id

/-- Embedding of _build_context_string: one speaker-colon-content line per message,
over the trailing MAX_CONTEXT_MESSAGES window. -/
def buildContextString (messages : List Message) : List Char :=
  List.intercalate ['\n']
    ((messages.drop (messages.length - MAX_CONTEXT_MESSAGES)).map
      (fun m => senderLabel m ++ ": ".data ++ m.content))

/-- The enumerate loop of _get_quick_replies, with the running index
threaded explicitly. -/
def quickFrom (intent : ReplyIntent) (tone : ReplyTone) :
    Nat → List (List Char) → List ReplySuggestion
  | _, [] => []
  | i, t :: rest =>
    { text := adjustForTone t tone, confidence := (8 : ℚ)/10 - (i : ℚ)/10,
      intent := intent, tone := tone, is_quick_reply := true }
    :: quickFrom intent tone (i + 1) rest

/-- Embedding of _get_quick_replies: templates for the intent, defaulting to the
empty list when the dict has no entry, sliced to at most 2. -/
def getQuickReplies (intent : ReplyIntent) (tone : ReplyTone) : List ReplySuggestion :=
  quickFrom intent tone 0 (((quickReplyTemplates intent).getD []).take 2)

/-- The enumerate loop of _generate_fallback_replies. -/
def fallbackFrom (intent : ReplyIntent) (tone : ReplyTone) :
    Nat → List (List Char) → List ReplySuggestion
  | _, [] => []
  | i, t :: rest =>
    { text := adjustForTone t tone, confidence := (6 : ℚ)/10 - (i : ℚ)/10,
      intent := intent, tone := tone, is_quick_reply := true }
    :: fallbackFrom intent tone (i + 1) rest

/-- Embedding of _generate_fallback_replies: templates for the intent with the
acknowledge set as dict.get default, sliced to num_suggestions. The
last_message parameter of the source is unused by its body. -/
def generateFallbackReplies (_lastMessage : List Char) (intent : ReplyIntent)
    (tone : ReplyTone) (numSuggestions : Nat) : List ReplySuggestion :=
  fallbackFrom intent tone 0 ((templatesOrAck intent).take numSuggestions)

/-- The enumerate loop of _generate_ml_replies over the decoded model
outputs: the index advances for every output, surviving candidates are
stripped of the echoed context prefix, cleaned, re-classified on their
own text and given confidence 0.7 minus 0.1 per index. -/
def mlFrom (context : List Char) (tone : ReplyTone) :
    Nat → List (List Char) → List ReplySuggestion
  | _, [] => []
  | i, out :: rest =>
    (let replyText := pyStrip (out.drop context.length)
     if replyText ≠ [] ∧ replyText.length > 3 then
       let cleaned := cleanReply replyText
       [{ text := cleaned, confidence := (7 : ℚ)/10 - (i : ℚ)/10,
          intent := detectIntent cleaned, tone := tone, is_quick_reply := false }]
     else [])
    ++ mlFrom context tone (i + 1) rest

/-- Embedding of _generate_ml_replies: tokenization and model.generate are external;
outputs is the list of decoded texts the model returned, each echoing
the context as a prefix. num_suggestions and max_length only
parameterize the external generate call (num_return_sequences equals
num_suggestions, so outputs has num_suggestions elements); a runtime
failure is caught and amounts to the loop stopping early, that is to a
shorter outputs list. -/
def generateMlReplies (context : List Char) (outputs : List (List Char))
    (tone : ReplyTone) : List ReplySuggestion :=
  mlFrom context tone 0 outputs

/-- Embedding of _summarize_context: the fixed no-context sentence on an empty
window, otherwise the participant and message counts. -/
def summarizeContext (messages : List Message) : List Char :=
  if messages = [] then "No context available".data
  else
    "Conversation with ".data ++ (Nat.repr (messages.map Message.sender_id).dedup.length).data
      ++ " participant(s), ".data ++ (Nat.repr messages.length).data
      ++ " recent message(s)".data

/-- The sort relation of generate_replies: descending confidence.
Python sorted with the reverse flag is stable, and insertion sort with
this reflexive-on-ties relation is stable in the same way. -/
def confGe (a b : ReplySuggestion) : Prop := b.confidence ≤ a.confidence

instance : DecidableRel confGe :=
  fun a b => inferInstanceAs (Decidable (b.confidence ≤ a.confidence))

instance : IsTotal ReplySuggestion confGe :=
  ⟨fun a b => le_total b.confidence a.confidence⟩

instance : IsTrans ReplySuggestion confGe :=
  ⟨fun _ _ _ hab hbc => le_trans hbc hab⟩

/-- The confidence-descending stable sort of generate_replies. -/
def sortByConfidenceDesc (l : List ReplySuggestion) : List ReplySuggestion :=
  List.insertionSort confGe l

/-- The service state generate_replies reads: whether initialization
succeeded (the source checks both the initialized flag and that the
model object is present; both are set together), and the decoded texts
the loaded model returns for the generate call, making the external
nondeterminism explicit. -/
structure ServiceState where
  initialized : Bool
  mlOutputs : List (List Char)

/-- generate_replies: the messages[-1] access raises IndexError on an
empty message list, modelled by returning none there; every later step
is total. -/
def generateReplies (st : ServiceState) (request : ReplyRequest) : Option ReplyResponse :=
  let contextStr := buildContextString request.context.messages
  match request.context.messages.getLast? with
  | none => none
  | some lastMessage =>
    let detectedIntent := detectIntent lastMessage.content
    let mlSuggestions :=
      if st.initialized then generateMlReplies contextStr st.mlOutputs request.tone else []
    let withQuick :=
      if request.include_quick_replies then
        mlSuggestions ++ getQuickReplies detectedIntent request.tone
      else mlSuggestions
    let allSuggestions :=
      if withQuick = [] then
        generateFallbackReplies lastMessage.content detectedIntent request.tone
          request.num_suggestions
      else withQuick
    some
      { suggestions := (sortByConfidenceDesc allSuggestions).take request.num_suggestions,
        context_summary := summarizeContext request.context.messages }

/-- get_quick_replies: classify the single message, return at most 4
templates for that intent with the acknowledge set as dict.get
default, paired with the detected intent. -/
def getQuickRepliesOp (lastMessage : List Char) : QuickReplyResponse :=
  let intent := detectIntent lastMessage
  { replies := (templatesOrAck intent).take 4, intent := intent }

/-! ### Concrete scenarios used by the claims -/

/-- A service whose initialization failed (backend unavailable). -/
def stOff : ServiceState := ⟨false, []⟩

/-- A service whose initialization succeeded, with the decoded model
output for the one-message context below made explicit. -/
def stOn : ServiceState := ⟨true, ["u1: ok Sure, that works for me".data]⟩

/-- A message whose content matches no intent pattern, so its detected
intent is general, which has no template entry of its own. -/
def msgOk : Message :=
  { content := "ok".data, sender_id := "u1".data }

/-- Backend-unavailable formal-tone request with two suggestions and
quick replies excluded. -/
def reqFormal2 : ReplyRequest :=
  { context := { messages := [msgOk] }, current_user_id := "u9".data,
    tone := ReplyTone.formal, num_suggestions := 2, max_length := 100,
    include_quick_replies := false }

/-- Backend-unavailable default-tone request asking for one suggestion. -/
def reqOne : ReplyRequest :=
  { context := { messages := [msgOk] }, current_user_id := "u9".data,
    num_suggestions := 1, include_quick_replies := false }

/-- Backend-available request with quick replies requested. -/
def reqMl : ReplyRequest :=
  { context := { messages := [msgOk] }, current_user_id := "u9".data }

/-- A request whose message window is empty; the schema layer forbids
this, but the orchestrator receives raw data from upstream. -/
def emptyContextRequest : ReplyRequest :=
  { context := { messages := [] }, current_user_id := "u1".data }

/-- First fallback suggestion of the formal acknowledge scenario: the
source formal-adapts the first acknowledge template. -/
def sugUnderstoodThanks : ReplySuggestion :=
  { text := "Understood, thanks!".data, confidence := 6/10,
    intent := ReplyIntent.general, tone := ReplyTone.formal, is_quick_reply := true }

/-- Second fallback suggestion of the formal acknowledge scenario. -/
def sugUnderstood : ReplySuggestion :=
  { text := "Understood".data, confidence := 5/10,
    intent := ReplyIntent.general, tone := ReplyTone.formal, is_quick_reply := true }

/-- The model-tier suggestion produced by stOn for the one-message
context, with its confidence written exactly as the source computes it. -/
def sugSure : ReplySuggestion :=
  { text := "Sure, that works for me.".data,
    confidence := (7 : ℚ)/10 - ((0 : ℕ) : ℚ)/10,
    intent := ReplyIntent.general, tone := ReplyTone.professional, is_quick_reply := false }

/-- The single fallback suggestion of the one-suggestion scenario, with
its confidence written exactly as the source computes it. -/
def sugGotIt : ReplySuggestion :=
  { text := "Got it, thanks!".data,
    confidence := (6 : ℚ)/10 - ((0 : ℕ) : ℚ)/10,
    intent := ReplyIntent.general, tone := ReplyTone.professional, is_quick_reply := true }

/-- The context summary of every single-message scenario above. -/
def summaryOne : List Char :=
  "Conversation with 1 participant(s), 1 recent message(s)".data

/-- The response of the one-suggestion scenario. -/
def resOne : ReplyResponse :=
  { suggestions := [sugGotIt], context_summary := summaryOne }

/-! ### Helper lemmas -/

theorem pyReplaceAux_of_not_contains (pat rep : List Char) :
    ∀ (fuel : Nat) (s : List Char), containsSub pat s = false →
      pyReplaceAux pat rep fuel s = s := by
  intro fuel
  induction fuel with
  | zero => intro s _; cases s <;> rfl
  | succ n ih =>
    intro s hs
    cases s with
    | nil => rfl
    | cons c rest =>
      simp only [containsSub, Bool.or_eq_false_iff] at hs
      rw [pyReplaceAux, if_neg, ih rest hs.2]
      rintro ⟨-, hpre⟩
      rw [hs.1] at hpre
      cases hpre

theorem pyReplace_of_not_contains (s pat rep : List Char)
    (h : containsSub pat s = false) : pyReplace s pat rep = s :=
  pyReplaceAux_of_not_contains pat rep s.length s h

theorem applyReplacements_of_no_triggers :
    ∀ (table : List (List Char × List Char)) (x : List Char),
      (∀ p ∈ table, containsSub p.1 x = false) → applyReplacements table x = x := by
  intro table
  induction table with
  | nil => intro x _; rfl
  | cons p ps ih =>
    intro x h
    have hx : pyReplace x p.1 p.2 = x :=
      pyReplace_of_not_contains _ _ _ (h p (List.mem_cons_self _ _))
    simp only [applyReplacements, List.foldl_cons]
    rw [hx]
    exact ih x (fun q hq => h q (List.mem_cons_of_mem _ hq))

theorem fallbackFrom_length (intent : ReplyIntent) (tone : ReplyTone) :
    ∀ (i : Nat) (ts : List (List Char)), (fallbackFrom intent tone i ts).length = ts.length := by
  intro i ts
  induction ts generalizing i with
  | nil => rfl
  | cons t rest ih => simp [fallbackFrom, ih]

theorem generateFallbackReplies_length (lastMessage : List Char) (intent : ReplyIntent)
    (tone : ReplyTone) (n : Nat) :
    (generateFallbackReplies lastMessage intent tone n).length =
      min n (templatesOrAck intent).length := by
  rw [generateFallbackReplies, fallbackFrom_length, List.length_take]

theorem mem_fallbackFrom {intent : ReplyIntent} {tone : ReplyTone} :
    ∀ {i : Nat} {ts : List (List Char)} {s : ReplySuggestion},
      s ∈ fallbackFrom intent tone i ts →
      s.is_quick_reply = true ∧ ∃ t ∈ ts, s.text = adjustForTone t tone := by
  intro i ts
  induction ts generalizing i with
  | nil => intro s hs; simp [fallbackFrom] at hs
  | cons t rest ih =>
    intro s hs
    rw [fallbackFrom] at hs
    rcases List.mem_cons.1 hs with rfl | hmem
    · exact ⟨rfl, t, List.mem_cons_self _ _, rfl⟩
    · obtain ⟨hq, t2, ht2, htext⟩ := ih hmem
      exact ⟨hq, t2, List.mem_cons_of_mem _ ht2, htext⟩

theorem fallbackFrom_conf {intent : ReplyIntent} {tone : ReplyTone} :
    ∀ (i : Nat) (ts : List (List Char)), i + ts.length ≤ 6 →
      ∀ s ∈ fallbackFrom intent tone i ts, 0 ≤ s.confidence ∧ s.confidence ≤ 1 := by
  intro i ts
  induction ts generalizing i with
  | nil => intro _ s hs; simp [fallbackFrom] at hs
  | cons t rest ih =>
    intro hle s hs
    rw [fallbackFrom] at hs
    rcases List.mem_cons.1 hs with rfl | hmem
    · have hi : i ≤ 5 := by simp only [List.length_cons] at hle; omega
      have h5 : (i : ℚ) ≤ 5 := by exact_mod_cast hi
      have h0 : (0 : ℚ) ≤ (i : ℚ) := Nat.cast_nonneg i
      constructor
      · show (0 : ℚ) ≤ (6 : ℚ)/10 - (i : ℚ)/10
        linarith
      · show (6 : ℚ)/10 - (i : ℚ)/10 ≤ 1
        linarith
    · exact ih (i + 1) (by simp at hle ⊢; omega) s hmem

theorem quickFrom_conf {intent : ReplyIntent} {tone : ReplyTone} :
    ∀ (i : Nat) (ts : List (List Char)), i + ts.length ≤ 8 →
      ∀ s ∈ quickFrom intent tone i ts, 0 ≤ s.confidence ∧ s.confidence ≤ 1 := by
  intro i ts
  induction ts generalizing i with
  | nil => intro _ s hs; simp [quickFrom] at hs
  | cons t rest ih =>
    intro hle s hs
    rw [quickFrom] at hs
    rcases List.mem_cons.1 hs with rfl | hmem
    · have hi : i ≤ 7 := by simp only [List.length_cons] at hle; omega
      have h7 : (i : ℚ) ≤ 7 := by exact_mod_cast hi
      have h0 : (0 : ℚ) ≤ (i : ℚ) := Nat.cast_nonneg i
      constructor
      · show (0 : ℚ) ≤ (8 : ℚ)/10 - (i : ℚ)/10
        linarith
      · show (8 : ℚ)/10 - (i : ℚ)/10 ≤ 1
        linarith
    · exact ih (i + 1) (by simp at hle ⊢; omega) s hmem

theorem mlFrom_conf {tone : ReplyTone} (context : List Char) :
    ∀ (i : Nat) (outs : List (List Char)), i + outs.length ≤ 7 →
      ∀ s ∈ mlFrom context tone i outs, 0 ≤ s.confidence ∧ s.confidence ≤ 1 := by
  intro i outs
  induction outs generalizing i with
  | nil => intro _ s hs; simp [mlFrom] at hs
  | cons out rest ih =>
    intro hle s hs
    simp only [mlFrom] at hs
    rcases List.mem_append.1 hs with hhead | hmem
    · have hi : i ≤ 6 := by simp only [List.length_cons] at hle; omega
      have h6 : (i : ℚ) ≤ 6 := by exact_mod_cast hi
      have h0 : (0 : ℚ) ≤ (i : ℚ) := Nat.cast_nonneg i
      split at hhead
      · rcases List.mem_singleton.1 hhead with rfl
        constructor
        · show (0 : ℚ) ≤ (7 : ℚ)/10 - (i : ℚ)/10
          linarith
        · show (7 : ℚ)/10 - (i : ℚ)/10 ≤ 1
          linarith
      · simp at hhead
    · exact ih (i + 1) (by simp only [List.length_cons] at hle; omega) s hmem

theorem templatesOrAck_ne_nil (intent : ReplyIntent) : templatesOrAck intent ≠ [] := by
  cases intent <;> decide

theorem templatesOrAck_length_le (intent : ReplyIntent) :
    (templatesOrAck intent).length ≤ 4 := by
  cases intent <;> decide

theorem sortByConfidenceDesc_sorted (l : List ReplySuggestion) :
    List.Sorted confGe (sortByConfidenceDesc l) :=
  List.sorted_insertionSort confGe l

theorem sortByConfidenceDesc_perm (l : List ReplySuggestion) :
    (sortByConfidenceDesc l).Perm l :=
  List.perm_insertionSort confGe l

theorem detectIntent_mem :
    ∀ t : List Char,
      detectIntent t ∈ [ReplyIntent.greeting, ReplyIntent.farewell, ReplyIntent.thanks,
        ReplyIntent.question, ReplyIntent.general] := by
  intro t
  rw [detectIntent]
  cases h : intentRules.find? (fun r => r.2 (lowerStr t)) with
  | none => simp
  | some r =>
    have hr := List.mem_of_find?_eq_some h
    simp only [intentRules, List.mem_cons, List.not_mem_nil, or_false] at hr
    rcases hr with rfl | rfl | rfl | rfl
    · simp
    · simp
    · simp
    · simp

theorem detectIntent_eq_of_find? {t : List Char} {r : ReplyIntent × (List Char → Bool)}
    (h : intentRules.find? (fun r => r.2 (lowerStr t)) = some r) : detectIntent t = r.1 := by
  rw [detectIntent, h]

theorem detectIntent_eq_general_of_find? {t : List Char}
    (h : intentRules.find? (fun r => r.2 (lowerStr t)) = none) :
    detectIntent t = ReplyIntent.general := by
  rw [detectIntent, h]

/-! ### Claims -/

/-- Claim C1: the spec says that on an empty message window
generate_replies still returns a ReplyResponse whose summary is the
fixed no-context sentence. The code computes that sentence only inside
its summarization helper; generate_replies itself indexes the last
message first and raises IndexError on an empty window, so it returns
no response at all while the helper alone produces the fixed sentence. -/
theorem claim1_generate_replies_empty_context :
    (∀ st : ServiceState, generateReplies st emptyContextRequest = none) ∧
    summarizeContext [] = "No context available".data :=
  ⟨fun _ => rfl, rfl⟩

/-- Claim C2: the intent classifier returns the intent of the first
rule, in the fixed order greeting, farewell, thanks, question, whose
pattern matches the lower-cased input, and returns general when no rule
matches, including on the empty string; in particular the input with
the text Hi, thanks! classifies as greeting and not thanks. -/
theorem claim2_intent_first_match :
    detectIntent "Hi, thanks!".data = ReplyIntent.greeting ∧
    detectIntent [] = ReplyIntent.general ∧
    (∀ t : List Char, anyKeyword greetingKeywords (lowerStr t) = true →
      detectIntent t = ReplyIntent.greeting) ∧
    (∀ t : List Char, anyKeyword greetingKeywords (lowerStr t) = false →
      anyKeyword farewellKeywords (lowerStr t) = true →
      detectIntent t = ReplyIntent.farewell) ∧
    (∀ t : List Char, anyKeyword greetingKeywords (lowerStr t) = false →
      anyKeyword farewellKeywords (lowerStr t) = false →
      anyKeyword thanksKeywords (lowerStr t) = true →
      detectIntent t = ReplyIntent.thanks) ∧
    (∀ t : List Char, anyKeyword greetingKeywords (lowerStr t) = false →
      anyKeyword farewellKeywords (lowerStr t) = false →
      anyKeyword thanksKeywords (lowerStr t) = false →
      (endsWithQuestionMark (lowerStr t) || anyKeyword questionKeywords (lowerStr t)) = true →
      detectIntent t = ReplyIntent.question) ∧
    (∀ t : List Char, anyKeyword greetingKeywords (lowerStr t) = false →
      anyKeyword farewellKeywords (lowerStr t) = false →
      anyKeyword thanksKeywords (lowerStr t) = false →
      (endsWithQuestionMark (lowerStr t) || anyKeyword questionKeywords (lowerStr t)) = false →
      detectIntent t = ReplyIntent.general) := by
  refine ⟨by decide, by decide, ?_, ?_, ?_, ?_, ?_⟩
  · intro t hg
    refine @detectIntent_eq_of_find? t (ReplyIntent.greeting, anyKeyword greetingKeywords) ?_
    simp only [intentRules]
    exact List.find?_cons_of_pos _ (by simpa using hg)
  · intro t hg hf
    refine @detectIntent_eq_of_find? t (ReplyIntent.farewell, anyKeyword farewellKeywords) ?_
    simp only [intentRules]
    rw [List.find?_cons_of_neg _ (by simpa using hg)]
    exact List.find?_cons_of_pos _ (by simpa using hf)
  · intro t hg hf hth
    refine @detectIntent_eq_of_find? t (ReplyIntent.thanks, anyKeyword thanksKeywords) ?_
    simp only [intentRules]
    rw [List.find?_cons_of_neg _ (by simpa using hg),
      List.find?_cons_of_neg _ (by simpa using hf)]
    exact List.find?_cons_of_pos _ (by simpa using hth)
  · intro t hg hf hth hqn
    refine @detectIntent_eq_of_find? t (ReplyIntent.question,
      fun t => endsWithQuestionMark t || anyKeyword questionKeywords t) ?_
    simp only [intentRules]
    rw [List.find?_cons_of_neg _ (by simpa using hg),
      List.find?_cons_of_neg _ (by simpa using hf),
      List.find?_cons_of_neg _ (by simpa using hth)]
    exact List.find?_cons_of_pos _ (by simpa using hqn)
  · intro t hg hf hth hqn
    refine detectIntent_eq_general_of_find? ?_
    simp only [intentRules]
    rw [List.find?_cons_of_neg _ (by simpa using hg),
      List.find?_cons_of_neg _ (by simpa using hf),
      List.find?_cons_of_neg _ (by simpa using hth),
      List.find?_cons_of_neg _ (by simpa using hqn)]
    rfl

/-- Witness for claim C2: the final rule of the theorem applied to a
concrete input that matches no pattern. -/
theorem claim2_witness : detectIntent "sounds great".data = ReplyIntent.general :=
  claim2_intent_first_match.2.2.2.2.2.2 "sounds great".data
    (by decide) (by decide) (by decide) (by decide)

/-- Claim C3: with the backend unavailable and quick replies excluded,
generate_replies returns a non-empty suggestion list sourced from the
fallback templates of the detected intent (with the acknowledge set as
default), sorted by descending confidence. -/
theorem claim3_fallback_totality (st : ServiceState) (req : ReplyRequest)
    (lastMessage : Message)
    (hlast : req.context.messages.getLast? = some lastMessage)
    (hinit : st.initialized = false)
    (hq : req.include_quick_replies = false)
    (hn : 1 ≤ req.num_suggestions) :
    ∃ res, generateReplies st req = some res ∧
      res.suggestions ≠ [] ∧
      List.Sorted confGe res.suggestions ∧
      ∀ s ∈ res.suggestions, s.is_quick_reply = true ∧
        ∃ t ∈ templatesOrAck (detectIntent lastMessage.content),
          s.text = adjustForTone t req.tone := by
  have hgen : generateReplies st req = some {
      suggestions := (sortByConfidenceDesc (generateFallbackReplies lastMessage.content
        (detectIntent lastMessage.content) req.tone req.num_suggestions)).take
          req.num_suggestions,
      context_summary := summarizeContext req.context.messages } := by
    simp [generateReplies, hlast, hinit, hq]
  refine ⟨_, hgen, ?_, ?_, ?_⟩
  · apply List.ne_nil_of_length_pos
    rw [List.length_take, (sortByConfidenceDesc_perm _).length_eq,
      generateFallbackReplies_length]
    have hpos : 0 < (templatesOrAck (detectIntent lastMessage.content)).length :=
      List.length_pos.2 (templatesOrAck_ne_nil _)
    omega
  · exact List.Pairwise.sublist (List.take_sublist _ _) (sortByConfidenceDesc_sorted _)
  · intro s hs
    have hs1 := List.mem_of_mem_take hs
    have hs2 := (sortByConfidenceDesc_perm _).mem_iff.1 hs1
    obtain ⟨hquick, t, ht, htext⟩ := mem_fallbackFrom hs2
    exact ⟨hquick, t, List.mem_of_mem_take ht, htext⟩

/-- Witness for claim C3: the theorem applied to the concrete
one-suggestion backend-unavailable request. -/
theorem claim3_witness :
    ∃ res, generateReplies stOff reqOne = some res ∧
      res.suggestions ≠ [] ∧
      List.Sorted confGe res.suggestions ∧
      ∀ s ∈ res.suggestions, s.is_quick_reply = true ∧
        ∃ t ∈ templatesOrAck (detectIntent msgOk.content),
          s.text = adjustForTone t reqOne.tone :=
  claim3_fallback_totality stOff reqOne msgOk (by decide) rfl rfl (by decide)

/-- Claim C4 counterexample: in the backend-unavailable, formal-tone,
two-suggestion scenario over a message of general intent (the closest
realizable form of the claimed acknowledge scenario), the first
suggestion text is not the unchanged first acknowledge template: the
formal table does rewrite it. -/
theorem claim4_counterexample :
    (generateReplies stOff reqFormal2).map (fun r => r.suggestions.map ReplySuggestion.text) =
      some ["Understood, thanks!".data, "Understood".data] ∧
    (("Understood, thanks!".data : List Char) == "Got it, thanks!".data) = false := by
  constructor
  · norm_num +decide [generateReplies, stOff, reqFormal2, msgOk, buildContextString,
      senderLabel, detectIntent, lowerStr, intentRules, anyKeyword, wbSearch, wbSearchAux,
      pyWordChar, endsWithQuestionMark, greetingKeywords, farewellKeywords, thanksKeywords,
      questionKeywords, generateFallbackReplies, fallbackFrom, templatesOrAck,
      quickReplyTemplates, ackTemplates, adjustForTone, applyReplacements, formalReplacements,
      pyReplace, pyReplaceAux, sortByConfidenceDesc, confGe, summarizeContext, List.find?,
      List.dedup, MAX_CONTEXT_MESSAGES]
  · decide

/-- Claim C4, amended: in that scenario the response has exactly 2
suggestions, both quick replies, with confidences 0.6 then 0.5; the
first text is the first acknowledge template formal-adapted to
Understood, thanks! because the Got it to Understood substitution
applies, and the second is Understood; moreover detection itself never
yields the acknowledge intent (the scenario arises through the general
intent resolving to the acknowledge template set). -/
theorem claim4_amended_scenario :
    generateReplies stOff reqFormal2 =
      some { suggestions := [sugUnderstoodThanks, sugUnderstood],
             context_summary := summaryOne } ∧
    ∀ t : List Char, (detectIntent t == ReplyIntent.acknowledge) = false := by
  constructor
  · norm_num +decide [generateReplies, stOff, reqFormal2, msgOk, buildContextString,
      senderLabel, detectIntent, lowerStr, intentRules, anyKeyword, wbSearch, wbSearchAux,
      pyWordChar, endsWithQuestionMark, greetingKeywords, farewellKeywords, thanksKeywords,
      questionKeywords, generateFallbackReplies, fallbackFrom, templatesOrAck,
      quickReplyTemplates, ackTemplates, adjustForTone, applyReplacements, formalReplacements,
      pyReplace, pyReplaceAux, sortByConfidenceDesc, confGe, summarizeContext, List.find?,
      List.dedup, MAX_CONTEXT_MESSAGES, sugUnderstoodThanks, sugUnderstood, summaryOne]
  · intro t
    have hmem := detectIntent_mem t
    simp only [List.mem_cons, List.not_mem_nil, or_false] at hmem
    rcases hmem with h | h | h | h | h <;> rw [h] <;> rfl

/-- Claim C5: every suggestion produced by any tier has confidence in
the closed interval from 0 to 1; the model tier receives at most
num_suggestions decoded outputs and num_suggestions is at most 5, so
its stepped-down confidences stay non-negative. -/
theorem claim5_confidence_bounds :
    (∀ (context : List Char) (outputs : List (List Char)) (tone : ReplyTone),
      outputs.length ≤ 5 →
      ∀ s ∈ generateMlReplies context outputs tone,
        0 ≤ s.confidence ∧ s.confidence ≤ 1) ∧
    (∀ (intent : ReplyIntent) (tone : ReplyTone),
      ∀ s ∈ getQuickReplies intent tone, 0 ≤ s.confidence ∧ s.confidence ≤ 1) ∧
    (∀ (lastMessage : List Char) (intent : ReplyIntent) (tone : ReplyTone) (n : Nat),
      ∀ s ∈ generateFallbackReplies lastMessage intent tone n,
        0 ≤ s.confidence ∧ s.confidence ≤ 1) := by
  refine ⟨?_, ?_, ?_⟩
  · intro context outputs tone hlen s hs
    exact mlFrom_conf context 0 outputs (by omega) s hs
  · intro intent tone s hs
    have h2 : (((quickReplyTemplates intent).getD []).take 2).length ≤ 2 :=
      List.length_take_le _ _
    exact quickFrom_conf 0 _ (by omega) s hs
  · intro lastMessage intent tone n s hs
    have h4 : ((templatesOrAck intent).take n).length ≤ 4 :=
      le_trans (List.length_take_le' _ _) (templatesOrAck_length_le intent)
    exact fallbackFrom_conf 0 _ (by omega) s hs

/-- Witness for claim C5: the fallback-tier bound applied to the first
fallback suggestion of a concrete general-intent call. -/
theorem claim5_witness : 0 ≤ sugGotIt.confidence ∧ sugGotIt.confidence ≤ 1 :=
  claim5_confidence_bounds.2.2 "ok".data ReplyIntent.general ReplyTone.professional 2
    sugGotIt (List.mem_cons_self _ _)

/-- Claim C6: every response generate_replies returns carries at most
num_suggestions suggestions, whatever tiers contributed. -/
theorem claim6_suggestion_cap (st : ServiceState) (req : ReplyRequest) (res : ReplyResponse)
    (h : generateReplies st req = some res) :
    res.suggestions.length ≤ req.num_suggestions := by
  simp only [generateReplies] at h
  cases hm : req.context.messages.getLast? with
  | none => rw [hm] at h; cases h
  | some lastMessage =>
    rw [hm] at h
    obtain rfl := (Option.some.inj h).symm
    exact List.length_take_le _ _

/-- Witness for claim C6: the theorem applied to the concrete
one-suggestion backend-unavailable request and its computed response. -/
theorem claim6_witness : resOne.suggestions.length ≤ reqOne.num_suggestions :=
  claim6_suggestion_cap stOff reqOne resOne rfl

/-- Claim C7: get_quick_replies always succeeds and returns at most 4
replies, exactly the leading templates of the detected intent (with
the acknowledge set as default), paired with the detected intent. -/
theorem claim7_quick_reply_cap :
    ∀ lastMessage : List Char,
      (getQuickRepliesOp lastMessage).replies.length ≤ 4 ∧
      (getQuickRepliesOp lastMessage).replies =
        (templatesOrAck (detectIntent lastMessage)).take 4 ∧
      (getQuickRepliesOp lastMessage).intent = detectIntent lastMessage :=
  fun _ => ⟨List.length_take_le _ _, rfl, rfl⟩

/-- Claim C8: adapting any text with the professional tone is the
identity transform. -/
theorem claim8_professional_identity :
    ∀ text : List Char, adjustForTone text ReplyTone.professional = text :=
  fun _ => rfl

/-- Claim C9: on any text containing none of the casual trigger
phrases of the formal substitution table, formal tone adaptation is
idempotent. -/
theorem claim9_formal_idempotent (x : List Char)
    (h : ∀ p ∈ formalReplacements, containsSub p.1 x = false) :
    adjustForTone (adjustForTone x ReplyTone.formal) ReplyTone.formal =
      adjustForTone x ReplyTone.formal := by
  have hx : adjustForTone x ReplyTone.formal = x :=
    applyReplacements_of_no_triggers _ x h
  rw [hx]
  exact hx

/-- Witness for claim C9: the theorem applied to a concrete text free
of casual trigger phrases. -/
theorem claim9_witness :
    adjustForTone (adjustForTone "Certainly.".data ReplyTone.formal) ReplyTone.formal =
      adjustForTone "Certainly.".data ReplyTone.formal :=
  claim9_formal_idempotent "Certainly.".data (by decide)

/-- Claim C10: the quick-reply step of generate_replies contributes
nothing for the intents without template entries (answer, suggestion,
general), unlike the fallback tier, which always has 3 acknowledge
suggestions for the general intent, and unlike the standalone
get_quick_replies operation, which falls back to the acknowledge set;
consequently a backend-available response can contain no quick replies
at all even though quick replies were requested. -/
theorem claim10_quick_replies_no_fallback :
    (∀ tone : ReplyTone,
      getQuickReplies ReplyIntent.answer tone = [] ∧
      getQuickReplies ReplyIntent.suggestion tone = [] ∧
      getQuickReplies ReplyIntent.general tone = []) ∧
    (∀ (tone : ReplyTone) (lastMessage : List Char),
      (generateFallbackReplies lastMessage ReplyIntent.general tone 3).length = 3) ∧
    ((getQuickRepliesOp "ok".data).replies = ackTemplates ∧
      (getQuickRepliesOp "ok".data).intent = ReplyIntent.general) ∧
    (∃ res, generateReplies stOn reqMl = some res ∧
      res.suggestions.map ReplySuggestion.is_quick_reply = [false]) := by
  refine ⟨fun tone => ⟨rfl, rfl, rfl⟩, ?_, ⟨rfl, rfl⟩, ?_⟩
  · intro tone lastMessage
    rw [generateFallbackReplies_length]
    rfl
  · exact ⟨{ suggestions := [sugSure], context_summary := summaryOne }, rfl, rfl⟩

end SmartReply
